import Mathlib

/-!
Verification of the inventory-sync reconciliation engine.

The definitions below are a shallow embedding of the Python sources:
utils/helpers.py, core/inventory_updater.py, core/inventory_matcher.py,
core/shopify_client.py and main.py.  Machine integers are modelled by Int,
Python floats by Rat, Python dicts by insertion-ordered association lists
with unique keys, and HTTP traffic by explicit response environments.
-/

namespace InventorySync

/-! ## utils/helpers.py -/

/-- The whitespace characters matched by a Python regex class backslash-s
(and removed by str.strip) for ASCII input. -/
def pyIsSpace (c : Char) : Bool :=
  c = ' ' || c = '\t' || c = '\n' || c = '\r' || c = '\x0b' || c = '\x0c'

/-- Characters removed by the separator-stripping regex in normalize_ean:
whitespace, dash and underscore. -/
def isEanSeparator (c : Char) : Bool :=
  pyIsSpace c || c = '-' || c = '_'

/-- normalize_ean from utils/helpers.py: for a falsy input return none;
otherwise remove whitespace, dashes and underscores, and accept the result
only if it is all digits and 8 to 14 characters long. -/
def normalize_ean (ean : Option String) : Option String :=
  match ean with
  | none => none
  | some s =>
    if s = "" then none
    else
      let cleaned := String.mk (s.data.filter (fun c => !(isEanSeparator c)))
      if cleaned.data.all (fun c => c.isDigit) && decide (8 ≤ cleaned.data.length)
          && decide (cleaned.data.length ≤ 14) then
        some cleaned
      else none

/-- Python str.strip: drop leading and trailing whitespace. -/
def pyStrip (s : String) : String :=
  String.mk (((s.data.dropWhile pyIsSpace).reverse.dropWhile pyIsSpace).reverse)

/-- normalize_sku from utils/helpers.py: falsy input gives none; otherwise
strip and uppercase, and an empty result gives none. -/
def normalize_sku (sku : Option String) : Option String :=
  match sku with
  | none => none
  | some s =>
    if s = "" then none
    else
      let normalized := String.mk ((pyStrip s).data.map Char.toUpper)
      if normalized = "" then none else some normalized

/-- calculate_quantity_drop_percent from utils/helpers.py.  Python float
arithmetic is modelled by exact rational arithmetic. -/
def calculate_quantity_drop_percent (old_qty new_qty : Int) : ℚ :=
  if old_qty ≤ 0 then 0
  else if new_qty ≥ old_qty then 0
  else ((old_qty : ℚ) - (new_qty : ℚ)) / (old_qty : ℚ) * 100

/-- Python int() applied to a float value: truncation toward zero. -/
def pyInt (q : ℚ) : Int :=
  q.num / (q.den : Int)

/-! ## core/inventory_updater.py -/

/-- The three configuration fields of InventoryUpdater.  The drop threshold
is kept as a rational so that any configured numeric value is covered. -/
structure SafetyConfig where
  max_quantity_drop_percent : ℚ
  min_quantity_for_zero_check : Int
  enable_safety_checks : Bool
deriving Repr, DecidableEq

/-- The reason strings produced by should_flag_update, as a tagged value
carrying the data interpolated into the Python message. -/
inductive FlagReason where
  | highQuantityToZero (old_qty : Int)
  | quantityDrop (pct : Int) (old_qty new_qty : Int)
deriving Repr, DecidableEq

/-- should_flag_update from core/inventory_updater.py: none means the update
is safe, some reason means it is flagged for review. -/
def should_flag_update (cfg : SafetyConfig) (old_qty new_qty : Int) :
    Option FlagReason :=
  if cfg.enable_safety_checks = false then none
  else if old_qty ≥ cfg.min_quantity_for_zero_check ∧ new_qty = 0 then
    some (.highQuantityToZero old_qty)
  else if new_qty = 0 then none
  else
    let drop_percent := calculate_quantity_drop_percent old_qty new_qty
    if drop_percent ≥ cfg.max_quantity_drop_percent then
      some (.quantityDrop (pyInt drop_percent) old_qty new_qty)
    else none

/-- The three classification outcomes named by the specification. -/
inductive RefDecision where
  | safe
  | flaggedHighToZero
  | flaggedDropPercent
deriving Repr, DecidableEq

/-- Modelled from the spec: the reference classification of section 4.4,
written from the specification text, to be compared with the embedded
should_flag_update.  If checks are disabled the update is safe; if old is
at least minQuantityForZeroCheck and new is zero it is flagged high-to-zero;
else if new is zero it is safe; else with dropPercent equal to
max 0 ((old - new) / old * 100) when old is positive and 0 otherwise, it is
flagged drop-percent exactly when dropPercent reaches the threshold. -/
def refClassify (cfg : SafetyConfig) (old_qty new_qty : Int) : RefDecision :=
  if cfg.enable_safety_checks = false then .safe
  else if old_qty ≥ cfg.min_quantity_for_zero_check ∧ new_qty = 0 then
    .flaggedHighToZero
  else if new_qty = 0 then .safe
  else
    let dropPercent : ℚ :=
      if 0 < old_qty then
        max 0 (((old_qty : ℚ) - (new_qty : ℚ)) / (old_qty : ℚ) * 100)
      else 0
    if dropPercent ≥ cfg.max_quantity_drop_percent then .flaggedDropPercent
    else .safe

/-- Forget the message payload of a flagging outcome, keeping its kind. -/
def decisionKind : Option FlagReason → RefDecision
  | none => .safe
  | some (.highQuantityToZero _) => .flaggedHighToZero
  | some (.quantityDrop _ _ _) => .flaggedDropPercent

/-- Whether a flagging outcome is a quantity-drop-percent flag. -/
def isDropFlag : Option FlagReason → Bool
  | some (.quantityDrop _ _ _) => true
  | _ => false

/-! ## core/inventory_matcher.py and the variant map of
core/shopify_client.py -/

/-- A key of the shopify_variants dictionary.  The Python code encodes keys
as the strings EAN: or SKU: followed by the identifier; since the two
prefixed forms never collide, they are modelled as a tagged key. -/
inductive IdKey where
  | eanKey (ident : String)
  | skuKey (ident : String)
deriving Repr, DecidableEq

/-- A variant entry of the dictionary built by
get_product_variants_with_inventory in core/shopify_client.py. -/
structure VariantData where
  product_id : Nat
  variant_id : Nat
  inventory_item_id : Nat
  location_id : Nat
  sku : Option String
  barcode : Option String
  title : String
  inventory_quantity : Int
deriving Repr, DecidableEq

/-- The Python dict of variants: an insertion-ordered association list
whose keys are unique by construction. -/
abbrev VariantDict := List (IdKey × VariantData)

/-- Python dict lookup. -/
def dictFind (d : VariantDict) (k : IdKey) : Option VariantData :=
  match d with
  | [] => none
  | (k2, v) :: rest => if k2 = k then some v else dictFind rest k

/-- Python dict assignment: replace the value in place when the key already
exists, otherwise append the new binding at the end. -/
def dictInsert (d : VariantDict) (k : IdKey) (v : VariantData) : VariantDict :=
  match d with
  | [] => [(k, v)]
  | (k2, v2) :: rest =>
      if k2 = k then (k2, v) :: rest else (k2, v2) :: dictInsert rest k v

/-- An identifier-to-bucket table, as built in the matcher constructor. -/
abbrev Lookup := List (String × List VariantData)

/-- Append a variant to the bucket of an identifier, creating the bucket at
the end of the table when absent (the dict-of-lists construction of the
InventoryMatcher constructor). -/
def bucketAppend (l : Lookup) (ident : String) (v : VariantData) : Lookup :=
  match l with
  | [] => [(ident, [v])]
  | (k, b) :: rest =>
      if k = ident then (k, b ++ [v]) :: rest
      else (k, b) :: bucketAppend rest ident v

/-- The bucket stored for an identifier; an absent identifier has an empty
bucket (the Python dict .get default). -/
def bucketOf (l : Lookup) (ident : String) : List VariantData :=
  match l with
  | [] => []
  | (k, b) :: rest => if k = ident then b else bucketOf rest ident

/-- The ean_lookup table of the InventoryMatcher constructor: every
dictionary entry keyed by an EAN is appended to that EAN's bucket, in
dictionary order. -/
def ean_lookup (d : VariantDict) : Lookup :=
  d.foldl (fun acc kv =>
    match kv with
    | (.eanKey e, v) => bucketAppend acc e v
    | _ => acc) []

/-- The sku_lookup table of the InventoryMatcher constructor. -/
def sku_lookup (d : VariantDict) : Lookup :=
  d.foldl (fun acc kv =>
    match kv with
    | (.skuKey s2, v) => bucketAppend acc s2 v
    | _ => acc) []

/-- The result triple of match_product: a matched variant carrying its
match type, a duplicate report, or a not-found report. -/
inductive MatchRes where
  | matched (variant : VariantData) (matchType : String)
  | duplicate (error : String)
  | notFound (error : String)
deriving Repr, DecidableEq

/-- How Python formats an optional string inside an f-string. -/
def pyShowOpt : Option String → String
  | none => "None"
  | some s => s

/-- match_product from core/inventory_matcher.py: normalize both
identifiers, try the EAN key first with a duplicate-bucket check, fall back
to the SKU key with the same logic, and report not-found otherwise. -/
def match_product (d : VariantDict) (ean sku : Option String) : MatchRes :=
  let normalized_ean := normalize_ean ean
  let normalized_sku := normalize_sku sku
  let byEan : Option MatchRes :=
    match normalized_ean with
    | none => none
    | some e =>
      match dictFind d (.eanKey e) with
      | none => none
      | some v =>
        if (bucketOf (ean_lookup d) e).length > 1 then
          some (.duplicate s!"Multiple products found with EAN: {e}")
        else some (.matched v "ean")
  match byEan with
  | some r => r
  | none =>
    let bySku : Option MatchRes :=
      match normalized_sku with
      | none => none
      | some s2 =>
        match dictFind d (.skuKey s2) with
        | none => none
        | some v =>
          if (bucketOf (sku_lookup d) s2).length > 1 then
            some (.duplicate s!"Multiple products found with SKU: {s2}")
          else some (.matched v "sku")
    match bySku with
    | some r => r
    | none =>
      let eanShown := pyShowOpt normalized_ean
      let skuShown := pyShowOpt normalized_sku
      .notFound s!"No match found for EAN: {eanShown}, SKU: {skuShown}"

/-- A normalized supplier product record. -/
structure SupplierProduct where
  ean : Option String
  sku : Option String
  quantity : Int
  title : String
  status : Option String
deriving Repr, DecidableEq

/-- A matched entry of match_products_batch. -/
structure MatchedEntry where
  supplier_product : SupplierProduct
  shopify_variant : VariantData
  match_type : String
deriving Repr, DecidableEq

/-- A not-found or duplicate entry of match_products_batch. -/
structure UnmatchedEntry where
  supplier_product : SupplierProduct
  error : String
deriving Repr, DecidableEq

/-- The partition returned by match_products_batch. -/
structure MatchBatchResults where
  matched : List MatchedEntry
  not_found : List UnmatchedEntry
  duplicates : List UnmatchedEntry
deriving Repr, DecidableEq

/-- match_products_batch from core/inventory_matcher.py: apply
match_product to every supplier product and partition by outcome. -/
def match_products_batch (d : VariantDict)
    (supplier_products : List SupplierProduct) : MatchBatchResults :=
  supplier_products.foldl (fun results product =>
    match match_product d product.ean product.sku with
    | .duplicate err =>
        { results with
          duplicates := results.duplicates ++ [⟨product, err⟩] }
    | .notFound err =>
        { results with
          not_found := results.not_found ++ [⟨product, err⟩] }
    | .matched v mt =>
        { results with
          matched := results.matched ++ [⟨product, v, mt⟩] })
    ⟨[], [], []⟩

/-- An entry of get_duplicate_identifiers. -/
structure DuplicateEntry where
  identifier : String
  idType : String
  count : Nat
  products : List VariantData
deriving Repr, DecidableEq

/-- get_duplicate_identifiers from core/inventory_matcher.py: every lookup
bucket holding more than one record, EAN buckets first. -/
def get_duplicate_identifiers (d : VariantDict) : List DuplicateEntry :=
  (((ean_lookup d).filter (fun kb => kb.2.length > 1)).map
      (fun kb => ⟨kb.1, "EAN", kb.2.length, kb.2⟩)) ++
  (((sku_lookup d).filter (fun kb => kb.2.length > 1)).map
      (fun kb => ⟨kb.1, "SKU", kb.2.length, kb.2⟩))

/-- Whether no identifier of the dictionary is duplicated: every bucket of
both lookup tables holds at most one record. -/
def noDuplicateIdentifiers (d : VariantDict) : Bool :=
  ((ean_lookup d).all fun kb => kb.2.length ≤ 1) &&
  ((sku_lookup d).all fun kb => kb.2.length ≤ 1)

/-- A raw variant of the platform's paginated product listing. -/
structure PlatformVariant where
  id : Nat
  inventory_item_id : Nat
  sku : Option String
  barcode : Option String
  title : String
  inventory_quantity : Option Int
deriving Repr, DecidableEq

/-- A raw product of the platform's paginated product listing. -/
structure PlatformProduct where
  id : Nat
  title : String
  tags : String
  variants : List PlatformVariant
deriving Repr, DecidableEq

/-- The client-side tag filter of get_product_variants_with_inventory: a
product with an empty tag string is dropped; otherwise it is kept when any
requested tag appears in its comma-separated tag list. -/
def tagFilterKeep (tags : String) (p : PlatformProduct) : Bool :=
  if p.tags = "" then false
  else
    let filter_tags := (tags.splitOn ",").map pyStrip
    let product_tags := (p.tags.splitOn ",").map pyStrip
    filter_tags.any (fun ft => product_tags.contains ft)

/-- The variant_data record built for one variant.  The source coerces the
quantity with safe_int(_, default=0); the coercion of an absent value to
the default is modelled by Option.getD. -/
def variant_entry (primary_location_id : Nat) (p : PlatformProduct)
    (v : PlatformVariant) : VariantData :=
  { product_id := p.id
    variant_id := v.id
    inventory_item_id := v.inventory_item_id
    location_id := primary_location_id
    sku := v.sku
    barcode := v.barcode
    title := p.title ++ " - " ++ v.title
    inventory_quantity := v.inventory_quantity.getD 0 }

/-- Insert one variant into the dictionary under its barcode key and its
SKU key, skipping falsy (absent or empty) identifiers; an existing key is
overwritten in place. -/
def insertVariant (m : VariantDict) (vd : VariantData) : VariantDict :=
  let m1 :=
    match vd.barcode with
    | some b => if b = "" then m else dictInsert m (.eanKey b) vd
    | none => m
  match vd.sku with
  | some s2 => if s2 = "" then m1 else dictInsert m1 (.skuKey s2) vd
  | none => m1

/-- get_product_variants_with_inventory from core/shopify_client.py: filter
products client-side when tags were requested, then build the variant
dictionary by inserting every variant under each identifier it carries. -/
def get_product_variants_with_inventory (all_products : List PlatformProduct)
    (tags : Option String) (primary_location_id : Nat) : VariantDict :=
  let products :=
    match tags with
    | some t => all_products.filter (tagFilterKeep t)
    | none => all_products
  products.foldl (fun m p =>
    p.variants.foldl
      (fun m2 v => insertVariant m2 (variant_entry primary_location_id p v))
      m) []

/-- The number of variant records in a product listing that carry a given
barcode. -/
def variantsCarrying (ps : List PlatformProduct) (b : String) : Nat :=
  (ps.map (fun p => (p.variants.filter (fun v => v.barcode = some b)).length)).sum

/-- A concrete variant for the C8 witness catalog, reachable by EAN. -/
def c8VarA : VariantData :=
  ⟨1, 10, 100, 77, some "S1", some "12345678", "A - V1", 5⟩

/-- A concrete variant for the C8 witness catalog, reachable by SKU. -/
def c8VarB : VariantData :=
  ⟨2, 20, 200, 77, some "AB", none, "B - V2", 3⟩

/-- A duplicate-free dictionary in which the EAN resolves to one entry and
the SKU resolves to a different entry. -/
def c8Dict : VariantDict :=
  [(.eanKey "12345678", c8VarA), (.skuKey "AB", c8VarB)]

/-- A two-product catalog in which both variants carry the same barcode:
the input of the C2 analysis. -/
def c2Products : List PlatformProduct :=
  [{ id := 1, title := "A", tags := "",
     variants := [{ id := 10, inventory_item_id := 100, sku := some "S1",
                    barcode := some "12345678", title := "V1",
                    inventory_quantity := some 5 }] },
   { id := 2, title := "B", tags := "",
     variants := [{ id := 20, inventory_item_id := 200, sku := some "S2",
                    barcode := some "12345678", title := "V2",
                    inventory_quantity := some 7 }] }]

/-! ## batch_update_inventory of core/shopify_client.py -/

/-- One update submitted to batch_update_inventory. -/
structure BatchUpdate where
  inventory_item_id : Nat
  quantity : Int
  sku : Option String
  ean : Option String
deriving Repr, DecidableEq

/-- One recorded per-item error of a batch. -/
structure BatchError where
  sku : String
  ean : String
  error : String
deriving Repr, DecidableEq

/-- The counters returned by batch_update_inventory. -/
structure BatchResult where
  total : Nat
  successful : Nat
  failed : Nat
  skipped : Nat
  errors : List BatchError
deriving Repr, DecidableEq

/-- The externally visible effect of processing one batch item: an applied
platform write, a write attempt that failed on the platform side, or a
dry-run report of the would-be update. -/
inductive BatchEvent where
  | write (inventory_item_id location_id : Nat) (available : Int)
  | failedWrite (inventory_item_id location_id : Nat) (available : Int)
  | dryRunReport (sku ean : String) (quantity : Int)
deriving Repr, DecidableEq

/-- Whether an event is an applied platform write. -/
def isWriteEvent : BatchEvent → Bool
  | .write _ _ _ => true
  | _ => false

/-- The platform inventory state: available quantity per inventory item and
location pair. -/
def InventoryState := Nat × Nat → Int

/-- Applying one batch event to the platform state: only an applied write
changes the stored quantity. -/
def applyEvent (st : InventoryState) : BatchEvent → InventoryState
  | .write iid loc q => fun key => if key = (iid, loc) then q else st key
  | _ => st

/-- Applying a trace of batch events in order. -/
def applyEvents (st : InventoryState) (evs : List BatchEvent) : InventoryState :=
  evs.foldl applyEvent st

/-- The sku shown for an update in messages: the Python dict .get default
N/A. -/
def shownSku (u : BatchUpdate) : String := u.sku.getD "N/A"

/-- The ean shown for an update in messages. -/
def shownEan (u : BatchUpdate) : String := u.ean.getD "N/A"

/-- The error record appended when an item's platform write raises. -/
def batchErrorFor (u : BatchUpdate) : BatchError :=
  let sku := shownSku u
  let ean := shownEan u
  ⟨sku, ean, s!"Failed to update {sku} (EAN: {ean})"⟩

/-- The item loop of batch_update_inventory.  The writeOk oracle tells, per
item position, whether the platform write raises; a raised write is caught,
counted as failed and recorded, and the loop continues. -/
def batchRun (writeOk : Nat → Bool) (location_id : Nat) (dry_run : Bool) :
    List BatchUpdate → Nat → BatchResult → List BatchEvent →
      BatchResult × List BatchEvent
  | [], _, res, evs => (res, evs)
  | u :: rest, i, res, evs =>
    if dry_run then
      batchRun writeOk location_id dry_run rest (i + 1)
        { res with skipped := res.skipped + 1 }
        (evs ++ [.dryRunReport (shownSku u) (shownEan u) u.quantity])
    else if writeOk i then
      batchRun writeOk location_id dry_run rest (i + 1)
        { res with successful := res.successful + 1 }
        (evs ++ [.write u.inventory_item_id location_id u.quantity])
    else
      batchRun writeOk location_id dry_run rest (i + 1)
        { res with
          failed := res.failed + 1
          errors := res.errors ++ [batchErrorFor u] }
        (evs ++ [.failedWrite u.inventory_item_id location_id u.quantity])

/-- batch_update_inventory from core/shopify_client.py, with the per-item
write outcomes supplied by an oracle and the issued requests returned as an
event trace. -/
def batch_update_inventory (writeOk : Nat → Bool) (location_id : Nat)
    (updates : List BatchUpdate) (dry_run : Bool) :
    BatchResult × List BatchEvent :=
  batchRun writeOk location_id dry_run updates 0
    { total := updates.length, successful := 0, failed := 0, skipped := 0,
      errors := [] } []

/-! ## The HTTP layer of core/shopify_client.py: the retrying request
helper and the paginated product read -/

/-- One response of the HTTP environment, indexed by the number of requests
issued so far: either the request call raises a network error, or a
response arrives with its status code and optional Retry-After header. -/
inductive HttpResp where
  | netErr
  | resp (code : Nat) (retryAfter : Option Nat)
deriving Repr, DecidableEq

/-- The outcome of the inner rate-limit loop: a non-429 response, a raised
network error, or exhaustion of the dedicated rate-limit attempts. -/
inductive InnerOut where
  | gotResp (code : Nat) (next : Nat) (rlWaits : List Nat)
  | netError (next : Nat) (rlWaits : List Nat)
  | exhausted (next : Nat) (rlWaits : List Nat)
deriving Repr, DecidableEq

/-- The inner loop over max_rate_limit_attempts = 20 in _make_request: a
429 response waits the Retry-After value (default retry_delay = 2) and
reissues the request; any other response breaks out; a network error
raised by the request call propagates to the enclosing handler. -/
def innerLoop (env : Nat → HttpResp) : Nat → Nat → List Nat → InnerOut
  | 0, n, ws => .exhausted n ws
  | fuel + 1, n, ws =>
    match env n with
    | .netErr => .netError (n + 1) ws
    | .resp code ra =>
      if code = 429 then innerLoop env fuel (n + 1) (ws ++ [ra.getD 2])
      else .gotResp code (n + 1) ws

/-- The observable outcome of one _make_request call: whether it returned
normally, how many requests it issued, the rate-limit waits and the
exponential backoff waits it performed, and how many outer attempts it
consumed. -/
structure MakeRequestResult where
  ok : Bool
  requests : Nat
  rlWaits : List Nat
  backoffs : List Nat
  attemptsUsed : Nat
deriving Repr, DecidableEq

/-- The outer retry loop of _make_request with max_retries = 10 and
retry_delay = 2.  Every caught exception — a network error, an HTTP error
status raised after the inner loop, or the exhaustion of the rate-limit
attempts — sleeps retry_delay times two to the attempt index and retries
while attempts remain, and is re-raised on the last attempt. -/
def outerLoop (env : Nat → HttpResp) :
    Nat → Nat → Nat → List Nat → List Nat → MakeRequestResult
  | 0, _, n, rl, bo => ⟨false, n, rl, bo, 0⟩
  | r + 1, attempt, n, rl, bo =>
    match innerLoop env 20 n rl with
    | .gotResp code n2 rl2 =>
      if 400 ≤ code then
        if r = 0 then ⟨false, n2, rl2, bo, attempt + 1⟩
        else outerLoop env r (attempt + 1) n2 rl2 (bo ++ [2 * 2 ^ attempt])
      else ⟨true, n2, rl2, bo, attempt + 1⟩
    | .netError n2 rl2 =>
      if r = 0 then ⟨false, n2, rl2, bo, attempt + 1⟩
      else outerLoop env r (attempt + 1) n2 rl2 (bo ++ [2 * 2 ^ attempt])
    | .exhausted n2 rl2 =>
      if r = 0 then ⟨false, n2, rl2, bo, attempt + 1⟩
      else outerLoop env r (attempt + 1) n2 rl2 (bo ++ [2 * 2 ^ attempt])

/-- _make_request from core/shopify_client.py, run against a response
environment. -/
def make_request (env : Nat → HttpResp) : MakeRequestResult :=
  outerLoop env 10 0 0 [] []

/-- An environment whose first k responses are rate-limited without a
Retry-After header and whose later responses are plain successes. -/
def envRL (k : Nat) : Nat → HttpResp :=
  fun n => if n < k then .resp 429 none else .resp 200 none

/-- An environment in which every request raises a network error. -/
def envNetErrAll : Nat → HttpResp :=
  fun _ => .netErr

/-- One response of the page environment of get_all_products: a raised
request error, or a page with its products and whether a next-page link is
present. -/
inductive PageResp where
  | err
  | page (products : List Nat) (next : Bool)
deriving Repr, DecidableEq

/-- The observable outcome of one get_all_products call: the accumulated
products, how many page requests were issued, and whether a page request
failed (the failure is caught and printed; the caller sees only the
products gathered so far). -/
structure FetchResult where
  products : List Nat
  requests : Nat
  errored : Bool
deriving Repr, DecidableEq

/-- The page loop of get_all_products from core/shopify_client.py.  The
page requests are issued directly, not through _make_request; a caught
request error breaks the loop; an empty page breaks the loop; a missing
next link ends the pagination.  The fuel bounds the page count of the
modelled run. -/
def getAllProductsLoop (env : Nat → PageResp) : Nat → Nat → List Nat → FetchResult
  | 0, n, acc => ⟨acc, n, false⟩
  | fuel + 1, n, acc =>
    match env n with
    | .err => ⟨acc, n + 1, true⟩
    | .page ps next =>
      if ps = [] then ⟨acc, n + 1, false⟩
      else if next then getAllProductsLoop env fuel (n + 1) (acc ++ ps)
      else ⟨acc ++ ps, n + 1, false⟩

/-- get_all_products run from the first page with empty accumulator. -/
def get_all_products_run (env : Nat → PageResp) (fuel : Nat) : FetchResult :=
  getAllProductsLoop env fuel 0 []

/-- The concrete page environment of the C3 counterexample: the first page
succeeds with a next link, the second page request fails. -/
def c3Env : Nat → PageResp :=
  fun n => if n = 0 then .page [1, 2] true else .err

/-- A page environment whose first k pages each hold one product and link
onward, and whose page k fails. -/
def envPagesErr (k : Nat) : Nat → PageResp :=
  fun n => if n < k then .page [n] true else .err


/-! ## Module loading: the safe_int import of core/shopify_client.py -/

/-- The names bound at top level of utils/helpers.py: its four imported
names and its six function definitions.  No name safe_int is bound. -/
def utilsHelpersNames : List String :=
  ["re", "Union", "Optional", "Dict",
   "normalize_status", "normalize_ean", "normalize_sku",
   "calculate_quantity_drop_percent", "format_product_identifier",
   "sanitize_supplier_name"]

/-- The outcome of loading a Python module. -/
inductive ModuleLoad where
  | ok
  | importError (module name : String)
deriving Repr, DecidableEq

/-- Loading core/shopify_client.py executes, at line 6, the statement
from utils.helpers import safe_int, which binds safe_int only when the
helpers module namespace holds that name and raises ImportError
otherwise. -/
def loadShopifyClient : ModuleLoad :=
  if utilsHelpersNames.contains "safe_int" then .ok
  else .importError "utils.helpers" "safe_int"

/-- Loading main.py imports core.shopify_client at line 8; a failed import
of a dependency fails the importing module with the same ImportError. -/
def loadMain : ModuleLoad :=
  match loadShopifyClient with
  | .ok => .ok
  | .importError m n => .importError m n

/-! ## The per-supplier pipeline and orchestrator of main.py,
sync_inventory, for the identifier-search-based suppliers -/

/-- One categorized update of InventoryUpdater.process_updates.  The
flag_reason field is set only on flagged entries. -/
structure UpdateData where
  inventory_item_id : Nat
  old_quantity : Int
  new_quantity : Int
  ean : Option String
  sku : Option String
  supplier : String
  product_id : Nat
  variant_id : Nat
  shopify_title : String
  flag_reason : Option FlagReason
deriving Repr, DecidableEq

/-- The categorized output of process_updates. -/
structure ProcessResults where
  safe_updates : List UpdateData
  flagged_updates : List UpdateData
  no_change : List UpdateData
deriving Repr, DecidableEq

/-- The update_data record built for one matched pair. -/
def updateDataFor (supplier_name : String) (m : MatchedEntry) : UpdateData :=
  { inventory_item_id := m.shopify_variant.inventory_item_id
    old_quantity := m.shopify_variant.inventory_quantity
    new_quantity := m.supplier_product.quantity
    ean := m.supplier_product.ean
    sku := m.supplier_product.sku
    supplier := supplier_name
    product_id := m.shopify_variant.product_id
    variant_id := m.shopify_variant.variant_id
    shopify_title := m.shopify_variant.title
    flag_reason := none }

/-- process_updates from core/inventory_updater.py: an unchanged quantity
is a no-op, a flagged change is queued for review, anything else is safe
to apply. -/
def process_updates (cfg : SafetyConfig) (matched_products : List MatchedEntry)
    (supplier_name : String) : ProcessResults :=
  matched_products.foldl (fun results m =>
    let old_qty := m.shopify_variant.inventory_quantity
    let new_qty := m.supplier_product.quantity
    let ud := updateDataFor supplier_name m
    if old_qty = new_qty then
      { results with no_change := results.no_change ++ [ud] }
    else
      match should_flag_update cfg old_qty new_qty with
      | some r =>
          { results with
            flagged_updates := results.flagged_updates ++
              [{ ud with flag_reason := some r }] }
      | none => { results with safe_updates := results.safe_updates ++ [ud] })
    ⟨[], [], []⟩

/-- prepare_shopify_updates from core/inventory_updater.py. -/
def prepare_shopify_updates (safe_updates : List UpdateData) : List BatchUpdate :=
  safe_updates.map (fun u => ⟨u.inventory_item_id, u.new_quantity, u.sku, u.ean⟩)

/-- The run-log entries written by sync_inventory that this development
tracks. -/
inductive LogEntry where
  | supplierStart (supplier : String)
  | errorLog (error_type message supplier : String)
  | notFoundLog (ean sku : Option String) (supplier : String)
  | duplicateLog (identifier idType : String) (count : Nat)
  | flaggedLog (ean sku : Option String) (reason : Option FlagReason)
      (old_qty new_qty : Int) (supplier : String)
  | updateLog (ean sku : Option String) (supplier : String)
      (old_qty new_qty : Int) (product_id variant_id : Nat)
deriving Repr, DecidableEq

/-- The environment of one search-based supplier run: its catalog slice,
the resolved location, and the behavior of its external collaborators. -/
structure SearchSupplierEnv where
  name : String
  shopifyVariants : VariantDict
  locationId : Nat
  authOk : Bool
  searchResult : List SupplierProduct
  writeOk : Nat → Bool

/-- The EAN list derived from the catalog slice in main.py: the barcode of
every dictionary entry keyed by an EAN, skipping falsy barcodes. -/
def eanListOf (d : VariantDict) : List String :=
  d.foldl (fun acc kv =>
    match kv with
    | (.eanKey _, v) =>
      match v.barcode with
      | some e => if e = "" then acc else acc ++ [e]
      | none => acc
    | _ => acc) []

/-- The set of EANs present among the supplier's returned products,
skipping falsy values, as a deduplicated list. -/
def foundEansOf (products : List SupplierProduct) : List String :=
  (products.filterMap (fun p =>
    match p.ean with
    | some e => if e = "" then none else some e
    | none => none)).eraseDups

/-- The quantity-zero record synthesized for a searched identifier the
supplier did not return. -/
def zeroRecordFor (name : String) (e : String) : SupplierProduct :=
  { ean := some e, sku := none, quantity := 0,
    title := s!"Product not found on {name}",
    status := some "not_found_on_supplier" }

/-- The abort-guard exception message of main.py. -/
def safetyMsg (n : Nat) : String :=
  s!"SAFETY CHECK FAILED: Found 0 products out of {n} searched. This indicates a scraping/auth failure, not real stock levels. Aborting sync to prevent setting everything to 0."

/-- The duplicate-identifier log entries written after the matcher is
built. -/
def dupLogsOf (d : VariantDict) : List LogEntry :=
  (get_duplicate_identifiers d).map
    (fun dup => .duplicateLog dup.identifier dup.idType dup.count)

/-- The result of one supplier's pipeline: the log entries it wrote inside
the per-supplier try block, the platform events it issued, and the
exception message when the pipeline raised. -/
structure SupplierOutcome where
  logs : List LogEntry
  events : List BatchEvent
  failure : Option String
deriving Repr, DecidableEq

/-- The per-supplier pipeline of sync_inventory for an EAN-search-based
supplier: log catalog duplicates, authenticate, search, synthesize
quantity-zero records for identifiers the supplier did not return, apply
the abort guard, then match, classify, write the safe subset and log every
categorized item; a raised exception ends the pipeline with the events
issued so far. -/
def processSearchSupplier (cfg : SafetyConfig) (dryRun : Bool)
    (env : SearchSupplierEnv) : SupplierOutcome :=
  let d := env.shopifyVariants
  let nm := env.name
  let dupLogs := dupLogsOf d
  if env.authOk = false then
    ⟨dupLogs, [], some s!"Failed to authenticate with {nm}"⟩
  else
    let ean_list := eanListOf d
    let found_eans := foundEansOf env.searchResult
    let not_found_eans :=
      (ean_list.eraseDups).filter (fun e => !(found_eans.contains e))
    let supplier_products :=
      env.searchResult ++ not_found_eans.map (zeroRecordFor nm)
    if found_eans = [] ∧ ean_list ≠ [] then
      ⟨dupLogs, [], some (safetyMsg ean_list.length)⟩
    else
      let mb := match_products_batch d supplier_products
      let nfLogs := mb.not_found.map (fun it =>
        .notFoundLog it.supplier_product.ean it.supplier_product.sku nm)
      let dupMatchLogs := mb.duplicates.map (fun it =>
        .errorLog "duplicate_identifier" it.error nm)
      let ur := process_updates cfg mb.matched nm
      let flaggedLogs := ur.flagged_updates.map (fun u =>
        .flaggedLog u.ean u.sku u.flag_reason u.old_quantity u.new_quantity nm)
      let batchPart :=
        if ur.safe_updates = [] then ([], [])
        else
          let b := batch_update_inventory env.writeOk env.locationId
            (prepare_shopify_updates ur.safe_updates) dryRun
          let updLogs := ur.safe_updates.map (fun u =>
            .updateLog u.ean u.sku nm u.old_quantity u.new_quantity
              u.product_id u.variant_id)
          let errLogs := b.1.errors.map (fun e2 =>
            .errorLog "shopify_update" e2.error nm)
          (b.2, updLogs ++ errLogs)
      let ncLogs := ur.no_change.map (fun u =>
        .updateLog u.ean u.sku nm u.old_quantity u.new_quantity
          u.product_id u.variant_id)
      ⟨dupLogs ++ nfLogs ++ dupMatchLogs ++ flaggedLogs ++ batchPart.2 ++ ncLogs,
       batchPart.1, none⟩

/-- The accumulated observable outcome of the supplier loop. -/
structure SyncOutcome where
  logs : List LogEntry
  events : List BatchEvent
deriving Repr, DecidableEq

/-- The supplier loop of sync_inventory: log the supplier start, run its
pipeline, convert a raised exception into a supplier_processing error
entry, and continue with the next supplier. -/
def syncSuppliers (cfg : SafetyConfig) (dryRun : Bool) :
    List SearchSupplierEnv → SyncOutcome
  | [] => ⟨[], []⟩
  | env :: rest =>
    let one := processSearchSupplier cfg dryRun env
    let failLogs : List LogEntry :=
      match one.failure with
      | some msg => [.errorLog "supplier_processing" msg env.name]
      | none => []
    let restOut := syncSuppliers cfg dryRun rest
    ⟨.supplierStart env.name :: (one.logs ++ failLogs) ++ restOut.logs,
     one.events ++ restOut.events⟩


/-- The concrete supplier environment of the C1 witness: one catalog EAN,
successful authentication, and an empty search result. -/
def c1Env : SearchSupplierEnv :=
  { name := "order_nordic"
    shopifyVariants :=
      [(.eanKey "12345678", ⟨1, 10, 100, 77, some "S1", some "12345678", "A - V1", 5⟩)]
    locationId := 77
    authOk := true
    searchResult := []
    writeOk := fun _ => true }


end InventorySync

-- Theorems

namespace InventorySync

/-- The embedded drop-percent computation agrees with the specification
formula that clamps at zero. -/
theorem calculate_drop_eq_ref (o n : Int) :
    calculate_quantity_drop_percent o n =
      (if 0 < o then max 0 (((o : ℚ) - (n : ℚ)) / (o : ℚ) * 100) else 0) := by
  unfold calculate_quantity_drop_percent
  by_cases ho : o ≤ 0
  · rw [if_pos ho, if_neg (by omega)]
  · have hopos : 0 < o := by omega
    rw [if_neg ho, if_pos hopos]
    by_cases hn : n ≥ o
    · rw [if_pos hn]
      have hnum : ((o : ℚ) - (n : ℚ)) ≤ 0 := by
        have : (o : ℚ) ≤ (n : ℚ) := by exact_mod_cast hn
        linarith
      have hden : (0 : ℚ) < (o : ℚ) := by exact_mod_cast hopos
      have hle : ((o : ℚ) - (n : ℚ)) / (o : ℚ) * 100 ≤ 0 := by
        apply mul_nonpos_of_nonpos_of_nonneg
        · exact div_nonpos_of_nonpos_of_nonneg hnum (le_of_lt hden)
        · norm_num
      exact (max_eq_left hle).symm
    · rw [if_neg hn]
      have hnum : (0 : ℚ) ≤ ((o : ℚ) - (n : ℚ)) := by
        have : (n : ℚ) ≤ (o : ℚ) := by exact_mod_cast (by omega : n ≤ o)
        linarith
      have hden : (0 : ℚ) < (o : ℚ) := by exact_mod_cast hopos
      have : (0 : ℚ) ≤ ((o : ℚ) - (n : ℚ)) / (o : ℚ) * 100 := by positivity
      exact (max_eq_right this).symm

/-- C6: for all integer quantities old and new with old not equal to new,
the safety-check classification computed by should_flag_update equals the
reference classification written from the specification: disabled checks
are always safe; old at least minQuantityForZeroCheck going to zero is
flagged high-to-zero; any other zero is safe; otherwise the drop-percent
flag fires exactly when the clamped drop percentage reaches the
threshold. -/
theorem c6_classification_matches_reference (cfg : SafetyConfig)
    (old_qty new_qty : Int) (_h : old_qty ≠ new_qty) :
    decisionKind (should_flag_update cfg old_qty new_qty) =
      refClassify cfg old_qty new_qty := by
  unfold should_flag_update refClassify
  simp only [calculate_drop_eq_ref]
  split_ifs <;> simp [decisionKind]

/-- Witness for C6 at the concrete input old 10, new 4 with the default
configuration. -/
theorem c6_classification_matches_reference_witness :
    (10 : Int) ≠ 4 ∧
      decisionKind (should_flag_update ⟨80, 50, true⟩ 10 4) =
        refClassify ⟨80, 50, true⟩ 10 4 :=
  ⟨by decide, c6_classification_matches_reference ⟨80, 50, true⟩ 10 4 (by decide)⟩

/-- C7 counterexample: with safety checks enabled and the configured
threshold maxQuantityDropPercent equal to 0, the quantity-drop-percent flag
fires on the increase from 3 to 5, because the computed drop percentage 0
already reaches the threshold. -/
theorem c7_counterexample :
    (3 : Int) < 5 ∧
      (⟨0, 50, true⟩ : SafetyConfig).enable_safety_checks = true ∧
      isDropFlag (should_flag_update ⟨0, 50, true⟩ 3 5) = true := by
  refine ⟨by decide, rfl, ?_⟩
  simp [should_flag_update, calculate_quantity_drop_percent, isDropFlag]

/-- C7 amended: with safety checks enabled, the quantity-drop-percent flag
never fires when new is zero; and provided the configured threshold
maxQuantityDropPercent is positive, it never fires when new exceeds old. -/
theorem c7_amended_drop_flag_bounds (cfg : SafetyConfig) (old_qty new_qty : Int)
    (_hen : cfg.enable_safety_checks = true) :
    (new_qty = 0 → isDropFlag (should_flag_update cfg old_qty new_qty) = false) ∧
    (0 < cfg.max_quantity_drop_percent → old_qty < new_qty →
      isDropFlag (should_flag_update cfg old_qty new_qty) = false) := by
  constructor
  · intro hz
    subst hz
    unfold should_flag_update
    split_ifs with h1 h2 h3
    · rfl
    · rfl
    · rfl
    · exact absurd rfl h3
  · intro hmax hlt
    have hdrop : calculate_quantity_drop_percent old_qty new_qty = 0 := by
      unfold calculate_quantity_drop_percent
      by_cases ho : old_qty ≤ 0
      · rw [if_pos ho]
      · rw [if_neg ho, if_pos (by omega)]
    unfold should_flag_update
    simp only [hdrop]
    split_ifs with h1 h2 h3 h4
    · rfl
    · rfl
    · rfl
    · exact absurd (lt_of_lt_of_le hmax h4) (lt_irrefl 0)
    · rfl

/-- Witness for C7 amended: with the default configuration, no
drop-percent flag on 60 to 0 and none on the increase 3 to 5. -/
theorem c7_amended_drop_flag_bounds_witness :
    isDropFlag (should_flag_update ⟨80, 50, true⟩ 60 0) = false ∧
      isDropFlag (should_flag_update ⟨80, 50, true⟩ 3 5) = false :=
  ⟨(c7_amended_drop_flag_bounds ⟨80, 50, true⟩ 60 0 rfl).1 rfl,
   (c7_amended_drop_flag_bounds ⟨80, 50, true⟩ 3 5 rfl).2 (by norm_num) (by decide)⟩

/-- When every bucket of a lookup table holds at most one record, so does
the bucket retrieved for any identifier. -/
theorem bucketOf_length_le_one (l : Lookup) (x : String)
    (h : ∀ kb ∈ l, kb.2.length ≤ 1) : (bucketOf l x).length ≤ 1 := by
  induction l with
  | nil => simp [bucketOf]
  | cons kb rest ih =>
    obtain ⟨k, b⟩ := kb
    unfold bucketOf
    by_cases hk : k = x
    · rw [if_pos hk]
      exact h (k, b) (by simp)
    · rw [if_neg hk]
      exact ih (fun kb2 hm => h kb2 (List.mem_cons_of_mem _ hm))

/-- C8: for every catalog dictionary without duplicated identifiers, when
the normalized EAN resolves to an entry of the dictionary, match_product
returns that entry with match type ean, whatever the SKU argument is; the
SKU is never consulted. -/
theorem c8_ean_priority (d : VariantDict) (ean sku : Option String)
    (e : String) (v : VariantData)
    (hne : normalize_ean ean = some e)
    (hfind : dictFind d (.eanKey e) = some v)
    (hnodup : noDuplicateIdentifiers d = true) :
    match_product d ean sku = .matched v "ean" := by
  have hb : (bucketOf (ean_lookup d) e).length ≤ 1 := by
    apply bucketOf_length_le_one
    intro kb hm
    have hall := ((Bool.and_eq_true _ _).mp hnodup).1
    have := (List.all_eq_true.mp hall) kb hm
    simpa using this
  simp only [match_product, hne, hfind]
  rw [if_neg (by omega)]

/-- Witness for C8: the EAN resolves to one entry while the SKU resolves to
a different entry, and the EAN entry is returned with match type ean. -/
theorem c8_ean_priority_witness :
    normalize_ean (some "12345678") = some "12345678" ∧
      dictFind c8Dict (.eanKey "12345678") = some c8VarA ∧
      noDuplicateIdentifiers c8Dict = true ∧
      match_product c8Dict (some "12345678") (some "AB") = .matched c8VarA "ean" :=
  ⟨by decide, by decide, by decide,
   c8_ean_priority c8Dict (some "12345678") (some "AB") "12345678" c8VarA
     (by decide) (by decide) (by decide)⟩

/-- C2 evidence: in a catalog whose two variant records carry the same
barcode, the dictionary built by get_product_variants_with_inventory keeps
only the later record (the earlier one is overwritten during index
construction), and match_product on that identifier returns Matched with
the later record, not Duplicate — the claimed duplicate report never
happens on the code's real pipeline. -/
theorem c2_duplicate_silently_overwritten :
    variantsCarrying c2Products "12345678" = 2 ∧
      match_product (get_product_variants_with_inventory c2Products none 77)
          (some "12345678") none =
        .matched ⟨2, 20, 200, 77, some "S2", some "12345678", "B - V2", 7⟩ "ean" := by
  decide

/-- Invariants of the batch item loop: the total counter is never touched,
each processed item adds exactly one to the sum of the three outcome
counters, each failure adds exactly one error record, and each item emits
exactly one trace event whatever the outcomes of the other items were. -/
theorem batchRun_spec (w : Nat → Bool) (loc : Nat) (dr : Bool) :
    ∀ (us : List BatchUpdate) (i : Nat) (res : BatchResult)
      (evs : List BatchEvent),
      (batchRun w loc dr us i res evs).1.total = res.total ∧
      (batchRun w loc dr us i res evs).1.successful +
          (batchRun w loc dr us i res evs).1.failed +
          (batchRun w loc dr us i res evs).1.skipped =
        res.successful + res.failed + res.skipped + us.length ∧
      (batchRun w loc dr us i res evs).1.errors.length + res.failed =
        (batchRun w loc dr us i res evs).1.failed + res.errors.length ∧
      (batchRun w loc dr us i res evs).2.length = evs.length + us.length := by
  intro us
  induction us with
  | nil =>
    intro i res evs
    refine ⟨rfl, rfl, ?_, ?_⟩
    · show res.errors.length + res.failed = res.failed + res.errors.length
      omega
    · show evs.length = evs.length + List.length []
      simp
  | cons u rest ih =>
    intro i res evs
    obtain ⟨t, s, f, sk, er⟩ := res
    simp only [batchRun]
    split_ifs with hdr hw
    · obtain ⟨h1, h2, h3, h4⟩ :=
        ih (i + 1) ⟨t, s, f, sk + 1, er⟩
          (evs ++ [.dryRunReport (shownSku u) (shownEan u) u.quantity])
      dsimp only at h1 h2 h3 h4 ⊢
      refine ⟨h1, ?_, ?_, ?_⟩
      · simp only [List.length_cons]
        omega
      · omega
      · simp only [List.length_append, List.length_cons, List.length_nil] at h4 ⊢
        omega
    · obtain ⟨h1, h2, h3, h4⟩ :=
        ih (i + 1) ⟨t, s + 1, f, sk, er⟩
          (evs ++ [.write u.inventory_item_id loc u.quantity])
      dsimp only at h1 h2 h3 h4 ⊢
      refine ⟨h1, ?_, ?_, ?_⟩
      · simp only [List.length_cons]
        omega
      · omega
      · simp only [List.length_append, List.length_cons, List.length_nil] at h4 ⊢
        omega
    · obtain ⟨h1, h2, h3, h4⟩ :=
        ih (i + 1) ⟨t, s, f + 1, sk, er ++ [batchErrorFor u]⟩
          (evs ++ [.failedWrite u.inventory_item_id loc u.quantity])
      dsimp only at h1 h2 h3 h4 ⊢
      refine ⟨h1, ?_, ?_, ?_⟩
      · simp only [List.length_cons]
        omega
      · simp only [List.length_append, List.length_cons, List.length_nil] at h3 ⊢
        omega
      · simp only [List.length_append, List.length_cons, List.length_nil] at h4 ⊢
        omega

theorem batchRun_dry (w : Nat → Bool) (loc : Nat) :
    ∀ (us : List BatchUpdate) (i : Nat) (res : BatchResult)
      (evs : List BatchEvent),
      batchRun w loc true us i res evs =
        ({ res with skipped := res.skipped + us.length },
         evs ++ us.map (fun u => .dryRunReport (shownSku u) (shownEan u) u.quantity)) := by
  intro us
  induction us with
  | nil => intro i res evs; simp [batchRun]
  | cons u rest ih =>
    intro i res evs
    obtain ⟨t, s, f, sk, er⟩ := res
    simp only [batchRun, if_pos]
    rw [ih]
    refine Prod.ext ?_ ?_
    · simp only [List.length_cons, BatchResult.mk.injEq, true_and, and_true]
      omega
    · simp

theorem noWrite_applyEvents (st : InventoryState) :
    ∀ (evs : List BatchEvent),
      (∀ e ∈ evs, isWriteEvent e = false) → applyEvents st evs = st := by
  intro evs
  induction evs generalizing st with
  | nil => intro h; rfl
  | cons e rest ih =>
    intro h
    have he : isWriteEvent e = false := h e (by simp)
    have hstep : applyEvent st e = st := by
      cases e with
      | write a b c => simp [isWriteEvent] at he
      | failedWrite a b c => rfl
      | dryRunReport a b c => rfl
    show applyEvents (applyEvent st e) rest = st
    rw [hstep]
    exact ih st (fun e2 hm => h e2 (List.mem_cons_of_mem _ hm))


/-- C9: for every batch, location, per-item write-outcome pattern and mode,
the returned counters satisfy successful plus failed plus skipped equals
total, total is the number of submitted items, each failure adds exactly
one error record, and every submitted item emits exactly one processing
event, so one item's failure never prevents a later item from being
processed. -/
theorem c9_batch_counters (w : Nat → Bool) (loc : Nat)
    (updates : List BatchUpdate) (dry_run : Bool) :
    (batch_update_inventory w loc updates dry_run).1.successful +
        (batch_update_inventory w loc updates dry_run).1.failed +
        (batch_update_inventory w loc updates dry_run).1.skipped =
      (batch_update_inventory w loc updates dry_run).1.total ∧
    (batch_update_inventory w loc updates dry_run).1.total = updates.length ∧
    (batch_update_inventory w loc updates dry_run).1.errors.length =
      (batch_update_inventory w loc updates dry_run).1.failed ∧
    (batch_update_inventory w loc updates dry_run).2.length = updates.length := by
  obtain ⟨h1, h2, h3, h4⟩ :=
    batchRun_spec w loc dry_run updates 0
      { total := updates.length, successful := 0, failed := 0, skipped := 0,
        errors := [] } []
  dsimp only at h1 h2 h3 h4
  simp only [List.length_nil, Nat.add_zero, Nat.zero_add] at h2 h3 h4
  unfold batch_update_inventory
  refine ⟨?_, h1, ?_, ?_⟩
  · omega
  · omega
  · omega

/-- C10: a dry-run batch issues no platform write: the counters report all
items as skipped with nothing successful or failed and no error records,
the trace holds exactly one would-be-update report per item, and replaying
the trace leaves every platform inventory state unchanged. -/
theorem c10_dry_run_no_writes (w : Nat → Bool) (loc : Nat)
    (updates : List BatchUpdate) :
    batch_update_inventory w loc updates true =
      (⟨updates.length, 0, 0, updates.length, []⟩,
       updates.map (fun u => .dryRunReport (shownSku u) (shownEan u) u.quantity)) ∧
    ((batch_update_inventory w loc updates true).2.all
        (fun ev => !(isWriteEvent ev))) = true ∧
    ∀ st : InventoryState,
      applyEvents st (batch_update_inventory w loc updates true).2 = st := by
  have hmain : batch_update_inventory w loc updates true =
      (⟨updates.length, 0, 0, updates.length, []⟩,
       updates.map (fun u => .dryRunReport (shownSku u) (shownEan u) u.quantity)) := by
    unfold batch_update_inventory
    rw [batchRun_dry]
    simp
  refine ⟨hmain, ?_, ?_⟩
  · rw [hmain]
    simp [isWriteEvent]
  · intro st
    rw [hmain]
    apply noWrite_applyEvents
    intro e hm
    simp only [List.mem_map] at hm
    obtain ⟨u, _, rfl⟩ := hm
    rfl


/-- C5 counterexample: an environment of twenty consecutive rate-limited
responses followed by successes exhausts the dedicated rate-limit attempt
ceiling, yet the call succeeds: the exhaustion exception is caught by the
transient-retry loop (one extra outer attempt is consumed), so exceeding
the ceiling is not a hard failure as the claim states. -/
theorem c5_counterexample :
    (make_request (envRL 20)).ok = true ∧
    (make_request (envRL 20)).rlWaits.length = 20 ∧
    (make_request (envRL 20)).attemptsUsed = 2 := by decide

set_option maxRecDepth 40000 in
/-- C5 amended: a rate-limited response makes the client wait the default
backoff and reissue the same request without consuming a transient-retry
attempt, bounded by the separate larger ceiling of twenty waits per
attempt; exhausting that ceiling raises an exception that the
transient-retry loop catches and retries with backoff (it is not a hard
failure), and a terminal error occurs only when the ten transient attempts
are all exhausted, after at most two hundred rate-limit waits. -/
theorem c5_amended_rate_limit_policy (k : Nat) (hk : k < 20) :
    ((make_request (envRL k)).ok = true ∧
     (make_request (envRL k)).rlWaits = List.replicate k 2 ∧
     (make_request (envRL k)).attemptsUsed = 1 ∧
     (make_request (envRL k)).backoffs = []) ∧
    ((make_request (envRL 20)).ok = true ∧
     (make_request (envRL 20)).attemptsUsed = 2 ∧
     (make_request (envRL 20)).backoffs = [2]) ∧
    ((make_request (envRL 200)).ok = false ∧
     (make_request (envRL 200)).rlWaits.length = 200 ∧
     (make_request (envRL 200)).attemptsUsed = 10) := by
  refine ⟨?_, by decide, by decide⟩
  interval_cases k <;> exact (by decide)

set_option maxRecDepth 40000 in
/-- Witness for C5 amended at three rate-limited responses. -/
theorem c5_amended_rate_limit_policy_witness :
    ((make_request (envRL 3)).ok = true ∧
     (make_request (envRL 3)).rlWaits = List.replicate 3 2 ∧
     (make_request (envRL 3)).attemptsUsed = 1 ∧
     (make_request (envRL 3)).backoffs = []) ∧
    ((make_request (envRL 20)).ok = true ∧
     (make_request (envRL 20)).attemptsUsed = 2 ∧
     (make_request (envRL 20)).backoffs = [2]) ∧
    ((make_request (envRL 200)).ok = false ∧
     (make_request (envRL 200)).rlWaits.length = 200 ∧
     (make_request (envRL 200)).attemptsUsed = 10) :=
  c5_amended_rate_limit_policy 3 (by decide)

/-- C3 counterexample: when the first page succeeds with a next link and
the second page request fails, get_all_products issues exactly two
requests — the failed page request is never retried — and returns the
first page's products as its result, with the failure swallowed. -/
theorem c3_counterexample :
    (get_all_products_run c3Env 5).products = [1, 2] ∧
    (get_all_products_run c3Env 5).requests = 2 ∧
    (get_all_products_run c3Env 5).errored = true := by decide

/-- C3 amended: requests issued through _make_request are retried on
transient failure with exponential backoff up to ten attempts and then a
terminal error is raised; but the page requests of the paginated product
read are issued directly, not through _make_request: the first failing
page request is not retried, pagination stops, and the products gathered
so far are returned without an error reaching the caller. -/
theorem c3_amended_resilience (k : Nat) (hk : k < 20) :
    ((get_all_products_run (envPagesErr k) (k + 1)).products = List.range k ∧
     (get_all_products_run (envPagesErr k) (k + 1)).requests = k + 1 ∧
     (get_all_products_run (envPagesErr k) (k + 1)).errored = true) ∧
    ((make_request envNetErrAll).ok = false ∧
     (make_request envNetErrAll).requests = 10 ∧
     (make_request envNetErrAll).backoffs = [2, 4, 8, 16, 32, 64, 128, 256, 512]) := by
  refine ⟨?_, by decide⟩
  interval_cases k <;> exact (by decide)

/-- Witness for C3 amended at two successful pages before the failure. -/
theorem c3_amended_resilience_witness :
    ((get_all_products_run (envPagesErr 2) 3).products = List.range 2 ∧
     (get_all_products_run (envPagesErr 2) 3).requests = 3 ∧
     (get_all_products_run (envPagesErr 2) 3).errored = true) ∧
    ((make_request envNetErrAll).ok = false ∧
     (make_request envNetErrAll).requests = 10 ∧
     (make_request envNetErrAll).backoffs = [2, 4, 8, 16, 32, 64, 128, 256, 512]) :=
  c3_amended_resilience 2 (by decide)

/-- C4: utils/helpers.py binds no name safe_int, so the from-import at
line 6 of core/shopify_client.py raises ImportError when the module is
loaded, and main.py, which imports core.shopify_client, fails to load the
same way — no operation of the client or the orchestrator can run as
written. -/
theorem c4_safe_int_import_error :
    utilsHelpersNames.contains "safe_int" = false ∧
    loadShopifyClient = .importError "utils.helpers" "safe_int" ∧
    loadMain = .importError "utils.helpers" "safe_int" := by decide

/-- C1: for every search-based supplier run whose searched identifier set
is non-empty and whose supplier search returns no products, the pipeline
aborts with the safety-check message before any platform write: the
supplier contributes no platform events, a supplier_processing error entry
is recorded for it, the orchestrator continues with the remaining
suppliers, and replaying the run's events leaves the platform inventory
exactly as the remaining suppliers alone would. -/
theorem c1_abort_guard (cfg : SafetyConfig) (dryRun : Bool) (env : SearchSupplierEnv)
    (rest : List SearchSupplierEnv)
    (hN : eanListOf env.shopifyVariants ≠ [])
    (hz : env.searchResult = [])
    (hauth : env.authOk = true) :
    processSearchSupplier cfg dryRun env =
      ⟨dupLogsOf env.shopifyVariants, [],
       some (safetyMsg (eanListOf env.shopifyVariants).length)⟩ ∧
    (syncSuppliers cfg dryRun (env :: rest)).events =
      (syncSuppliers cfg dryRun rest).events ∧
    (syncSuppliers cfg dryRun (env :: rest)).logs =
      .supplierStart env.name ::
        (dupLogsOf env.shopifyVariants ++
          [.errorLog "supplier_processing"
            (safetyMsg (eanListOf env.shopifyVariants).length) env.name]) ++
        (syncSuppliers cfg dryRun rest).logs ∧
    ∀ st : InventoryState,
      applyEvents st (syncSuppliers cfg dryRun (env :: rest)).events =
        applyEvents st (syncSuppliers cfg dryRun rest).events := by
  have h1 : processSearchSupplier cfg dryRun env =
      ⟨dupLogsOf env.shopifyVariants, [],
       some (safetyMsg (eanListOf env.shopifyVariants).length)⟩ := by
    unfold processSearchSupplier
    rw [hauth, hz]
    simp only [foundEansOf, List.filterMap_nil, List.eraseDups]
    rw [if_neg (by simp), if_pos ⟨rfl, hN⟩]
  refine ⟨h1, ?_, ?_, ?_⟩
  · show (syncSuppliers cfg dryRun (env :: rest)).events = _
    simp [syncSuppliers, h1]
  · simp [syncSuppliers, h1]
  · intro st
    have he : (syncSuppliers cfg dryRun (env :: rest)).events =
        (syncSuppliers cfg dryRun rest).events := by
      simp [syncSuppliers, h1]
    rw [he]


/-- Witness for C1: the abort guard fires on the concrete one-EAN
environment and the orchestrator run over it issues no events. -/
theorem c1_abort_guard_witness :
    eanListOf c1Env.shopifyVariants ≠ [] ∧
    c1Env.searchResult = [] ∧
    c1Env.authOk = true ∧
    processSearchSupplier ⟨80, 50, true⟩ false c1Env =
      ⟨dupLogsOf c1Env.shopifyVariants, [],
       some (safetyMsg (eanListOf c1Env.shopifyVariants).length)⟩ ∧
    (syncSuppliers ⟨80, 50, true⟩ false [c1Env]).events =
      (syncSuppliers ⟨80, 50, true⟩ false []).events :=
  ⟨by decide, rfl, rfl,
   (c1_abort_guard ⟨80, 50, true⟩ false c1Env [] (by decide) rfl rfl).1,
   (c1_abort_guard ⟨80, 50, true⟩ false c1Env [] (by decide) rfl rfl).2.1⟩

end InventorySync
